import Mathlib

set_option autoImplicit false

/-!
Shallow embedding of the mvsim sensor pipeline
(`src/modules/simulator/src/Sensors/SensorBase.cpp`) and of the world
stepping engine declared in `src/libmvsim/include/mvsim/World.h`.

C++ `double` quantities (simulation clock, sensor period, poses) are
modelled as exact rationals `ℚ`; the claims under study are order/algebra
relations on these quantities, not statements about floating-point
rounding.
-/

namespace Mvsim

/-- Model of `mrpt::math::TPose3D` / `mrpt::poses::CPose3D`: a 6-DOF pose.
The sensor pipeline only stores and copies poses, so the components are
opaque rationals. -/
structure TPose3D where
  x : ℚ
  y : ℚ
  z : ℚ
  yaw : ℚ
  pitch : ℚ
  roll : ℚ
  deriving DecidableEq

/-- Model of `mvsim::TSimulContext`: the ephemeral per-step context.  Only
the field read by `SensorBase::should_simulate_sensor` is kept
(`simul_time`, the simulation clock). -/
structure TSimulContext where
  simul_time : ℚ
  deriving DecidableEq

/-- The mutable sensor-gating state of `mvsim::SensorBase`:
`m_sensor_period`, `m_sensor_last_timestamp`,
`m_vehicle_pose_at_last_timestamp` (SensorBase.h fields used by
`should_simulate_sensor`). -/
structure SensorState where
  sensor_period : ℚ
  sensor_last_timestamp : ℚ
  vehicle_pose_at_last_timestamp : TPose3D
  deriving DecidableEq

/-- Embedding of `SensorBase::should_simulate_sensor` (SensorBase.cpp
lines 248-258).  `vehiclePose` stands for `m_vehicle.getPose()`.  Returns
the C++ boolean result together with the sensor state after the call:

    if (context.simul_time < m_sensor_last_timestamp + m_sensor_period)
        return false;
    m_sensor_last_timestamp = context.simul_time;
    m_vehicle_pose_at_last_timestamp = CPose3D(m_vehicle.getPose());
    return true;
-/
def should_simulate_sensor (vehiclePose : TPose3D) (s : SensorState)
    (context : TSimulContext) : Bool × SensorState :=
  if context.simul_time < s.sensor_last_timestamp + s.sensor_period then
    (false, s)
  else
    (true,
      { s with
        sensor_last_timestamp := context.simul_time
        vehicle_pose_at_last_timestamp := vehiclePose })

/-- C1: the gating function returns `true`, records the clock as the new
last-sample timestamp and the owning entity's current pose, iff
`clock ≥ lastSampleTime + period`; on `false` the state is unchanged. -/
theorem should_simulate_sensor_spec (vehiclePose : TPose3D) (s : SensorState)
    (context : TSimulContext) :
    ((should_simulate_sensor vehiclePose s context).1 = true ↔
      s.sensor_last_timestamp + s.sensor_period ≤ context.simul_time)
    ∧ ((should_simulate_sensor vehiclePose s context).1 = true →
        (should_simulate_sensor vehiclePose s context).2.sensor_last_timestamp
            = context.simul_time
        ∧ (should_simulate_sensor vehiclePose s context).2.vehicle_pose_at_last_timestamp
            = vehiclePose)
    ∧ ((should_simulate_sensor vehiclePose s context).1 = false →
        (should_simulate_sensor vehiclePose s context).2 = s) := by
  unfold should_simulate_sensor
  by_cases hlt : context.simul_time < s.sensor_last_timestamp + s.sensor_period
  · simp [hlt, not_le.mpr hlt]
  · simp [hlt, not_lt.mp hlt]

/-- The sensor period is never modified by `should_simulate_sensor`. -/
theorem should_simulate_sensor_period (vehiclePose : TPose3D) (s : SensorState)
    (context : TSimulContext) :
    (should_simulate_sensor vehiclePose s context).2.sensor_period = s.sensor_period := by
  unfold should_simulate_sensor
  split <;> rfl

/-- Trace of a sequence of calls to `should_simulate_sensor` at the given
simulation clock values, threading the sensor state from call to call:
each entry is the clock value paired with the boolean the gate returned. -/
def gateTrace (vehiclePose : TPose3D) (s : SensorState) : List ℚ → List (ℚ × Bool)
  | [] => []
  | t :: ts =>
    let r := should_simulate_sensor vehiclePose s ⟨t⟩
    (t, r.1) :: gateTrace vehiclePose r.2 ts

/-- Every `true` entry of a gate trace over clocks that are all at or past
the stored last-sample timestamp occurs at least one period after that
timestamp. -/
theorem gateTrace_true_lower_bound (vehiclePose : TPose3D) :
    ∀ (ts : List ℚ) (s : SensorState), List.Sorted (· ≤ ·) ts →
      (∀ t ∈ ts, s.sensor_last_timestamp ≤ t) →
      ∀ x ∈ gateTrace vehiclePose s ts, x.2 = true →
        s.sensor_last_timestamp + s.sensor_period ≤ x.1
  | [], s, _, _, x, hx, _ => by simp [gateTrace] at hx
  | t :: ts, s, hsorted, hge, x, hx, hxtrue => by
    rw [List.sorted_cons] at hsorted
    simp only [gateTrace] at hx
    by_cases hlt : t < s.sensor_last_timestamp + s.sensor_period
    · -- the head call returns false and leaves the state unchanged
      rw [should_simulate_sensor, if_pos hlt] at hx
      rcases List.mem_cons.mp hx with hhead | htail
      · subst hhead; simp at hxtrue
      · exact gateTrace_true_lower_bound vehiclePose ts s hsorted.2
          (fun u hu => hge u (List.mem_cons_of_mem t hu)) x htail hxtrue
    · -- the head call returns true and sets the last timestamp to t
      rw [should_simulate_sensor, if_neg hlt] at hx
      rcases List.mem_cons.mp hx with hhead | htail
      · subst hhead; exact not_lt.mp hlt
      · have hbound := gateTrace_true_lower_bound vehiclePose ts
          { s with
            sensor_last_timestamp := t
            vehicle_pose_at_last_timestamp := vehiclePose }
          hsorted.2 (fun u hu => hsorted.1 u hu) x htail hxtrue
      -- the recursive bound is `t + period ≤ x.1`; weaken `t` to the old stamp
        have ht : s.sensor_last_timestamp ≤ t := hge t (List.mem_cons_self t ts)
        calc s.sensor_last_timestamp + s.sensor_period
            ≤ t + s.sensor_period := by linarith
          _ ≤ x.1 := hbound

/-- Any two `true` entries of a gate trace over nondecreasing clocks are
separated by at least one sensor period. -/
theorem gateTrace_pairwise (vehiclePose : TPose3D) :
    ∀ (ts : List ℚ) (s : SensorState), List.Sorted (· ≤ ·) ts →
      List.Pairwise
        (fun a b => a.2 = true → b.2 = true → a.1 + s.sensor_period ≤ b.1)
        (gateTrace vehiclePose s ts)
  | [], s, _ => by simp [gateTrace]
  | t :: ts, s, hsorted => by
    rw [List.sorted_cons] at hsorted
    simp only [gateTrace]
    by_cases hlt : t < s.sensor_last_timestamp + s.sensor_period
    · rw [should_simulate_sensor, if_pos hlt]
      refine List.pairwise_cons.mpr ⟨?_, gateTrace_pairwise vehiclePose ts s hsorted.2⟩
      intro x _ hfalse
      simp at hfalse
    · rw [should_simulate_sensor, if_neg hlt]
      set s' : SensorState :=
        { s with
          sensor_last_timestamp := t
          vehicle_pose_at_last_timestamp := vehiclePose } with hs'
      refine List.pairwise_cons.mpr ⟨?_, ?_⟩
      · intro x hx _ hxtrue
        have hbound := gateTrace_true_lower_bound vehiclePose ts s' hsorted.2
          (fun u hu => hsorted.1 u hu) x hx hxtrue
        simpa [hs'] using hbound
      · exact gateTrace_pairwise vehiclePose ts s' hsorted.2

/-- C2 (amended): over any nondecreasing sequence of clock values, any two
`true` results of the sampling gate are separated by simulated time at
least the sensor period; and whenever the period is strictly positive, a
repeated call at the very clock value that just returned `true` returns
`false`.  (For period `0` the immediate re-call returns `true` again, see
the counterexample.) -/
theorem gate_separation_and_no_immediate_resample (vehiclePose : TPose3D)
    (s : SensorState) (ts : List ℚ) (hsorted : List.Sorted (· ≤ ·) ts) :
    List.Pairwise
      (fun a b => a.2 = true → b.2 = true → a.1 + s.sensor_period ≤ b.1)
      (gateTrace vehiclePose s ts)
    ∧ (0 < s.sensor_period → ∀ context : TSimulContext,
        (should_simulate_sensor vehiclePose s context).1 = true →
        (should_simulate_sensor vehiclePose
          (should_simulate_sensor vehiclePose s context).2 context).1 = false) := by
  refine ⟨gateTrace_pairwise vehiclePose ts s hsorted, ?_⟩
  intro hpos context hfirst
  unfold should_simulate_sensor at hfirst ⊢
  by_cases hlt : context.simul_time < s.sensor_last_timestamp + s.sensor_period
  · simp [hlt] at hfirst
  · rw [if_neg hlt]
    simp only
    rw [if_pos (by linarith)]

/-- The origin pose, used for concrete evaluations. -/
def pose0 : TPose3D := ⟨0, 0, 0, 0, 0, 0⟩

/-- A sensor with period `0` and last-sample timestamp `0`. -/
def zeroPeriodSensor : SensorState := ⟨0, 0, pose0⟩

/-- A sensor with period `1` and last-sample timestamp `0`. -/
def unitPeriodSensor : SensorState := ⟨1, 0, pose0⟩

/-- C2 counterexample: with period `0`, the gate returns `true` at clock
`0` and then returns `true` again when called immediately afterwards at
the same clock value — refuting the claim that a call immediately after a
`true` result always returns `false`. -/
theorem gate_immediate_resample_cex :
    (should_simulate_sensor pose0 zeroPeriodSensor ⟨0⟩).1 = true
    ∧ (should_simulate_sensor pose0
        (should_simulate_sensor pose0 zeroPeriodSensor ⟨0⟩).2 ⟨0⟩).1 = true := by
  constructor <;> simp [should_simulate_sensor, zeroPeriodSensor]

/-- Witness for `gate_separation_and_no_immediate_resample` at a concrete
sorted clock list. -/
theorem gate_separation_witness :
    List.Sorted (· ≤ ·) [(0 : ℚ), 1, 2]
    ∧ (List.Pairwise
        (fun a b => a.2 = true → b.2 = true →
          a.1 + unitPeriodSensor.sensor_period ≤ b.1)
        (gateTrace pose0 unitPeriodSensor [(0 : ℚ), 1, 2])
      ∧ (0 < unitPeriodSensor.sensor_period → ∀ context : TSimulContext,
          (should_simulate_sensor pose0 unitPeriodSensor context).1 = true →
          (should_simulate_sensor pose0
            (should_simulate_sensor pose0 unitPeriodSensor context).2
            context).1 = false)) :=
  ⟨by simp,
    gate_separation_and_no_immediate_resample pose0 unitPeriodSensor
      [(0 : ℚ), 1, 2] (by simp)⟩

/-! ### Stepping engine (World::run_simulation)

`World.h` only declares `run_simulation`; its body is not among the
provided sources, so it is modelled from the spec (§4.2). -/

/-- Modelled from the spec: the body of `World::run_simulation` is missing
from the sources (only its declaration in `World.h` lines 91-96 is given).
Spec §4.2 step 2: "While pending time ≥ fixed timestep h: invoke one
discrete step of length h ... and subtract h from the accumulator; advance
the simulation clock by h."  `flushPending h clock pending` is that while
loop, returning the final clock and the final accumulator value. -/
def flushPending (h : ℚ) (clock pending : ℚ) : ℚ × ℚ :=
  if hc : 0 < h ∧ h ≤ pending then
    flushPending h (clock + h) (pending - h)
  else (clock, pending)
termination_by (⌈pending / h⌉).toNat
decreasing_by
  obtain ⟨hh, hle⟩ := hc
  have h1 : (1 : ℚ) ≤ pending / h := (one_le_div hh).mpr hle
  have h2 : (1 : ℤ) ≤ ⌈pending / h⌉ := by
    have := Int.le_ceil (pending / h)
    exact_mod_cast le_trans h1 this
  have heq : (pending - h) / h = pending / h - 1 := by
    field_simp
  rw [heq]
  have h3 : ⌈pending / h - 1⌉ = ⌈pending / h⌉ - 1 := by
    exact_mod_cast Int.ceil_sub_int (pending / h) 1
  rw [h3]
  omega

/-- The flush loop performs some whole number `n` of steps of length `h`:
it adds `n * h` to the clock and removes `n * h` from the accumulator. -/
theorem flushPending_form (h : ℚ) : ∀ clock pending : ℚ,
    ∃ n : ℕ, flushPending h clock pending = (clock + n * h, pending - n * h) := by
  intro clock pending
  induction clock, pending using flushPending.induct h with
  | case1 clock pending hc ih =>
    obtain ⟨n, hn⟩ := ih
    refine ⟨n + 1, ?_⟩
    rw [flushPending, dif_pos hc, hn]
    simp only [Prod.mk.injEq]
    push_cast
    constructor <;> ring
  | case2 clock pending hc =>
    exact ⟨0, by rw [flushPending, dif_neg hc]; simp⟩

/-- After the flush loop, less than one timestep of pending time remains. -/
theorem flushPending_snd_lt (h : ℚ) (hh : 0 < h) : ∀ clock pending : ℚ,
    (flushPending h clock pending).2 < h := by
  intro clock pending
  induction clock, pending using flushPending.induct h with
  | case1 clock pending hc ih =>
    rw [flushPending, dif_pos hc]
    exact ih
  | case2 clock pending hc =>
    rw [flushPending, dif_neg hc]
    push_neg at hc
    exact hc hh

/-- The flush loop never drives the pending accumulator negative. -/
theorem flushPending_snd_nonneg (h : ℚ) : ∀ clock pending : ℚ,
    0 ≤ pending → 0 ≤ (flushPending h clock pending).2 := by
  intro clock pending
  induction clock, pending using flushPending.induct h with
  | case1 clock pending hc ih =>
    intro _
    rw [flushPending, dif_pos hc]
    exact ih (by linarith [hc.1, hc.2])
  | case2 clock pending hc =>
    intro hp
    rw [flushPending, dif_neg hc]
    exact hp

/-- The state of a `mvsim::World` relevant to the stepping engine:
`m_simul_time` (the simulation clock, `World.h` line 221),
`m_simul_timestep` (the fixed integration timestep, line 224), plus the
pending-time accumulator of spec §4.2 step 1. -/
structure WorldState where
  simul_time : ℚ
  simul_timestep : ℚ
  pending : ℚ
  deriving DecidableEq

/-- Modelled from the spec: `World::run_simulation(dt)` (declared at
`World.h` lines 91-96, body not among the sources).  Spec §4.2:
"1. Accumulate dt into a pending-time accumulator.  2. While pending time
≥ fixed timestep h: invoke one discrete step of length h ... subtract h
from the accumulator; advance the simulation clock by h." -/
def run_simulation (w : WorldState) (dt : ℚ) : WorldState :=
  let r := flushPending w.simul_timestep w.simul_time (w.pending + dt)
  { w with simul_time := r.1, pending := r.2 }

/-- A sequence of `run_simulation` calls. -/
def runAll (w : WorldState) (dts : List ℚ) : WorldState :=
  dts.foldl run_simulation w

/-- A freshly constructed world: clock at zero, nothing pending, fixed
timestep `h`. -/
def initWorld (h : ℚ) : WorldState :=
  { simul_time := 0, simul_timestep := h, pending := 0 }

/-- Invariant of repeated `run_simulation` calls with nonnegative
requested times: the timestep is untouched, the pending accumulator stays
in `[0, h)`, and clock-plus-pending exactly accounts for all requested
time. -/
theorem runAll_inv (h : ℚ) (hh : 0 < h) : ∀ (dts : List ℚ) (w : WorldState),
    w.simul_timestep = h → 0 ≤ w.pending → w.pending < h →
    (∀ d ∈ dts, 0 ≤ d) →
    (runAll w dts).simul_timestep = h
    ∧ 0 ≤ (runAll w dts).pending
    ∧ (runAll w dts).pending < h
    ∧ (runAll w dts).simul_time + (runAll w dts).pending
        = w.simul_time + w.pending + dts.sum
  | [], w, hw, hp0, hph, _ => by
    refine ⟨hw, hp0, hph, ?_⟩
    simp [runAll]
  | d :: dts, w, hw, hp0, hph, hds => by
    have hd : 0 ≤ d := hds d (List.mem_cons_self d dts)
    have hstep : runAll w (d :: dts) = runAll (run_simulation w d) dts := rfl
    obtain ⟨n, hn⟩ := flushPending_form h w.simul_time (w.pending + d)
    have hts : (run_simulation w d).simul_timestep = h := hw
    have hclock : (run_simulation w d).simul_time
        = (flushPending h w.simul_time (w.pending + d)).1 := by
      simp [run_simulation, hw]
    have hpend : (run_simulation w d).pending
        = (flushPending h w.simul_time (w.pending + d)).2 := by
      simp [run_simulation, hw]
    have hpnn : 0 ≤ (run_simulation w d).pending := by
      rw [hpend]
      exact flushPending_snd_nonneg h _ _ (by linarith)
    have hplt : (run_simulation w d).pending < h := by
      rw [hpend]
      exact flushPending_snd_lt h hh _ _
    have hsum : (run_simulation w d).simul_time + (run_simulation w d).pending
        = w.simul_time + w.pending + d := by
      rw [hclock, hpend, hn]
      push_cast
      ring
    obtain ⟨ih1, ih2, ih3, ih4⟩ := runAll_inv h hh dts (run_simulation w d)
      hts hpnn hplt (fun u hu => hds u (List.mem_cons_of_mem d hu))
    refine ⟨by rwa [hstep], by rwa [hstep], by rwa [hstep], ?_⟩
    rw [hstep, ih4, hsum, List.sum_cons]
    ring

/-- C3: each `run_simulation(dt)` call advances the simulation clock by a
whole multiple of the fixed timestep `h`, performing at least one step
whenever `dt ≥ h`; and across repeated calls from a fresh world the
cumulative clock advance never lags the cumulative requested time by more
than `h`. -/
theorem run_simulation_fixed_timestep_advance
    (h dt : ℚ) (w : WorldState) (dts : List ℚ)
    (hh : 0 < h) (hw : w.simul_timestep = h) (hwp : 0 ≤ w.pending)
    (hdts : ∀ d ∈ dts, 0 ≤ d) :
    (∃ n : ℕ, (run_simulation w dt).simul_time = w.simul_time + n * h
        ∧ (h ≤ dt → 1 ≤ n))
    ∧ dts.sum - (runAll (initWorld h) dts).simul_time ≤ h := by
  constructor
  · obtain ⟨n, hn⟩ := flushPending_form h w.simul_time (w.pending + dt)
    refine ⟨n, ?_, ?_⟩
    · simp only [run_simulation, hw, hn]
    · intro hdt
      by_contra hn1
      have hn0 : n = 0 := by omega
      subst hn0
      have hlt := flushPending_snd_lt h hh w.simul_time (w.pending + dt)
      rw [hn] at hlt
      push_cast at hlt
      linarith
  · obtain ⟨_, _, hlt, hsum⟩ := runAll_inv h hh dts (initWorld h)
      rfl le_rfl hh hdts
    have : (runAll (initWorld h) dts).simul_time
        + (runAll (initWorld h) dts).pending = dts.sum := by
      simpa [initWorld] using hsum
    linarith

/-- Witness for `run_simulation_fixed_timestep_advance` with timestep `1`,
a single call requesting `2`, and a call sequence requesting `2` then
`1`. -/
theorem run_simulation_advance_witness :
    (0 : ℚ) < 1
    ∧ ((∃ n : ℕ, (run_simulation (initWorld 1) 2).simul_time
          = (initWorld 1).simul_time + n * 1 ∧ ((1 : ℚ) ≤ 2 → 1 ≤ n))
      ∧ List.sum [(2 : ℚ), 1] - (runAll (initWorld 1) [(2 : ℚ), 1]).simul_time ≤ 1) :=
  ⟨by simp,
    run_simulation_fixed_timestep_advance 1 2 (initWorld 1) [(2 : ℚ), 1]
      (by simp) rfl le_rfl (by simp)⟩

/-! ### Sensor type registration (register_all_sensors) -/

/-- The process-wide sensor class registry `mvsim::classFactory_sensors`
(SensorBase.cpp line 33), modelled as the list of registered class names
in registration order, together with the function-local `static bool done`
guard of `register_all_sensors`. -/
structure SensorRegistryState where
  done : Bool
  registry : List String
  deriving DecidableEq

/-- One `REGISTER_SENSOR(name, class)` expansion: registers the named
class in the factory. -/
def REGISTER_SENSOR (sensorName : String) (registry : List String) : List String :=
  registry ++ [sensorName]

/-- Embedding of `register_all_sensors` (SensorBase.cpp lines 37-48): a
`static bool done` guard makes every call after the first a no-op; the
first call registers `laser`, `rgbd_camera` and `camera`. -/
def register_all_sensors (s : SensorRegistryState) : SensorRegistryState :=
  if s.done then s
  else
    { done := true
      registry :=
        REGISTER_SENSOR "camera"
          (REGISTER_SENSOR "rgbd_camera" (REGISTER_SENSOR "laser" s.registry)) }

/-- The registry at process start: nothing registered, guard unset. -/
def initRegistry : SensorRegistryState := ⟨false, []⟩

/-- After any call, the `done` guard is set. -/
theorem register_all_sensors_done (s : SensorRegistryState) :
    (register_all_sensors s).done = true := by
  unfold register_all_sensors
  split
  · next h => exact h
  · rfl

/-- C4: repeated calls to `register_all_sensors` have exactly the effect
of one call: iterating it any positive number of times from the
process-start state equals calling it once, it is idempotent from every
state, and the single call from the process-start state registers the
three sensor classes once each with no duplicates. -/
theorem register_all_sensors_idempotent :
    (∀ n : ℕ, register_all_sensors^[n + 1] initRegistry
        = register_all_sensors initRegistry)
    ∧ (∀ s : SensorRegistryState,
        register_all_sensors (register_all_sensors s) = register_all_sensors s)
    ∧ (register_all_sensors initRegistry).registry
        = ["laser", "rgbd_camera", "camera"]
    ∧ (register_all_sensors initRegistry).registry.Nodup := by
  have hidem : ∀ s : SensorRegistryState,
      register_all_sensors (register_all_sensors s) = register_all_sensors s := by
    intro s
    have hdone := register_all_sensors_done s
    conv_lhs => rw [register_all_sensors]
    rw [hdone]
    simp
  refine ⟨?_, hidem, by decide, by decide⟩
  intro n
  induction n with
  | zero => rfl
  | succ m ih =>
    rw [Function.iterate_succ_apply', ih, hidem]

/-! ### Sensor factory (SensorBase::factory) -/

/-- Model of a `rapidxml` attribute: a name and an optional value
(`value()` may be a null pointer, modelled as `none`). -/
structure XmlAttr where
  name : String
  value : Option String
  deriving DecidableEq

/-- Model of a `rapidxml` node as consumed by `SensorBase::factory`: the
element name and its attribute list. -/
structure XmlNode where
  name : String
  attributes : List XmlAttr
  deriving DecidableEq

/-- `node->first_attribute(name)`: the first attribute with the given
name, or null. -/
def first_attribute (node : XmlNode) (attrName : String) : Option XmlAttr :=
  node.attributes.find? (fun a => a.name == attrName)

/-- A constructed sensor object, abstracted to the class it was created
from; the claims only need to know whether a sensor was constructed. -/
structure SensorObject where
  className : String
  deriving DecidableEq

/-- `TClassFactory::create(className, parent, root)`: a new object of the
registered class, or null (`none`) when the class name is unregistered. -/
def classFactory_create (registry : List String) (className : String) :
    Option SensorObject :=
  if className ∈ registry then some ⟨className⟩ else none

/-- Embedding of `SensorBase::factory` (SensorBase.cpp lines 87-122).
`root = none` models a null node pointer; errors carry the exact
`std::runtime_error` message texts thrown by the C++ code (apostrophes
escaped as `\x27`).  Note that the unknown-sensor-type message at lines
114-116 interpolates `root->name()` — the element name, which the earlier
check has pinned to `sensor` — not the class name `sName` that failed to
resolve. -/
def factory (reg : SensorRegistryState) (root : Option XmlNode) :
    Except String SensorObject :=
  let regAfter := register_all_sensors reg
  match root with
  | none => .error "[SensorBase::factory] XML node is nullptr"
  | some r =>
    if r.name ≠ "sensor" then
      .error ("[SensorBase::factory] XML root element is \x27" ++ r.name
        ++ "\x27 (\x27sensor\x27 expected)")
    else
      match first_attribute r "class" with
      | none =>
        .error "[VehicleBase::factory] Missing mandatory attribute \x27class\x27 in node <sensor>"
      | some sensor_class =>
        match sensor_class.value with
        | none =>
          .error "[VehicleBase::factory] Missing mandatory attribute \x27class\x27 in node <sensor>"
        | some sName =>
          match classFactory_create regAfter.registry sName with
          | none =>
            .error ("[SensorBase::factory] Unknown sensor type \x27"
              ++ r.name ++ "\x27")
          | some we => Except.ok we

/-- C5: a sensor node whose mandatory `class` attribute is absent, or has
no value, makes `SensorBase::factory` fail synchronously with the
descriptive missing-attribute error and construct no sensor. -/
theorem factory_missing_class_fails (reg : SensorRegistryState) (r : XmlNode)
    (hname : r.name = "sensor")
    (hclass : first_attribute r "class" = none
      ∨ ∃ a : XmlAttr, first_attribute r "class" = some a ∧ a.value = none) :
    factory reg (some r)
      = Except.error
          "[VehicleBase::factory] Missing mandatory attribute \x27class\x27 in node <sensor>"
    ∧ ∀ we : SensorObject, factory reg (some r) ≠ Except.ok we := by
  have hmain : factory reg (some r)
      = Except.error
          "[VehicleBase::factory] Missing mandatory attribute \x27class\x27 in node <sensor>" := by
    rcases hclass with hnone | ⟨a, ha, hav⟩
    · simp [factory, hname, hnone]
    · simp [factory, hname, ha, hav]
  exact ⟨hmain, fun we hok => by rw [hmain] at hok; exact Except.noConfusion hok⟩

/-- A sensor node with no attributes at all. -/
def bareSensorNode : XmlNode := ⟨"sensor", []⟩

/-- Witness for `factory_missing_class_fails`: a `<sensor>` node with no
attributes. -/
theorem factory_missing_class_witness :
    bareSensorNode.name = "sensor"
    ∧ (factory initRegistry (some bareSensorNode)
        = Except.error
            "[VehicleBase::factory] Missing mandatory attribute \x27class\x27 in node <sensor>"
      ∧ ∀ we : SensorObject,
          factory initRegistry (some bareSensorNode) ≠ Except.ok we) :=
  ⟨rfl, factory_missing_class_fails initRegistry bareSensorNode rfl (Or.inl rfl)⟩

/-- A sensor node whose `class` attribute names an unregistered type. -/
def bogusClassSensorNode : XmlNode := ⟨"sensor", [⟨"class", some "bogus"⟩]⟩

/-- C6 evaluation at the failing input: for a sensor node with
`class="bogus"`, the factory does fail synchronously with no sensor
constructed, but the error message interpolates the element name
`sensor` (always equal to `sensor` at that point) instead of the
unresolved class name `bogus`, so the message does not identify the
unresolved type. -/
theorem factory_unknown_type_message_eval :
    factory initRegistry (some bogusClassSensorNode)
      = Except.error "[SensorBase::factory] Unknown sensor type \x27sensor\x27"
    ∧ "[SensorBase::factory] Unknown sensor type \x27sensor\x27"
      ≠ "[SensorBase::factory] Unknown sensor type \x27bogus\x27" := by
  constructor
  · rfl
  · decide

/-! ### Publish-node parsing (SensorBase::parseSensorPublish) -/

/-- The content of a `<publish>` node as seen by
`SensorBase::parseSensorPublish`: the optional `publish_topic` child
parameter value, and the optional `enabled` attribute already parsed as a
boolean (`%bool`). -/
structure PublishNode where
  publish_topic : Option String
  enabled : Option Bool
  deriving DecidableEq

/-- Embedding of `SensorBase::parseSensorPublish` (SensorBase.cpp lines
124-153) acting on the stored `publishTopic_` field.  A null node returns
`false` at once.  Otherwise `parse_xmlnode_children_as_param` overwrites
`publishTopic_` only when a `publish_topic` child is present; the local
`publishEnabled` starts `true` and is overwritten by the `enabled`
attribute when present; `publishTopic_.clear()` runs when
`publishEnabled` is false; the call returns `true`.  The result is the
C++ return value paired with the new `publishTopic_`. -/
def parseSensorPublish (publishTopic : String) (node : Option PublishNode) :
    Bool × String :=
  match node with
  | none => (false, publishTopic)
  | some n =>
    let topicAfterParams :=
      match n.publish_topic with
      | some t => t
      | none => publishTopic
    let publishEnabled := n.enabled.getD true
    (true, if publishEnabled then topicAfterParams else "")

/-- C7: for a non-null `<publish>` node the call returns `true`; an
absent `enabled` attribute behaves exactly like `enabled=true`; when
`enabled` is not false the optional `publish_topic` value (defaulting to
the previously stored topic) is stored; and `enabled=false` clears the
stored topic regardless of any `publish_topic` value. -/
theorem parseSensorPublish_spec (publishTopic : String) (n : PublishNode) :
    (parseSensorPublish publishTopic (some n)).1 = true
    ∧ parseSensorPublish publishTopic (some { n with enabled := none })
        = parseSensorPublish publishTopic (some { n with enabled := some true })
    ∧ (n.enabled ≠ some false →
        (parseSensorPublish publishTopic (some n)).2
          = n.publish_topic.getD publishTopic)
    ∧ (n.enabled = some false →
        (parseSensorPublish publishTopic (some n)).2 = "") := by
  refine ⟨rfl, rfl, ?_, ?_⟩
  · intro hne
    have henabled : n.enabled.getD true = true := by
      cases he : n.enabled with
      | none => rfl
      | some b =>
        cases b with
        | false => exact absurd he hne
        | true => rfl
    simp only [parseSensorPublish, henabled, if_true]
    cases n.publish_topic <;> rfl
  · intro hfalse
    simp [parseSensorPublish, hfalse]

/-! ### Observation dispatch (SensorBase::reportNewObservation) -/

/-- One effect performed by the send-out worker task, in execution
order. -/
inductive SinkEvent where
  | worldHook
  | publish (topic : String)
  | rawlogAppend (path : String)
  deriving DecidableEq

/-- The `SensorBase` fields read by the send-out worker task:
`publishTopic_` and `m_save_to_rawlog` (empty = not configured), plus
whether the lazily created `m_rawlog_io` stream exists yet. -/
structure SensorIOState where
  publishTopic : String
  save_to_rawlog : String
  rawlogOpened : Bool
  deriving DecidableEq

/-- Embedding of the worker-task body enqueued by
`SensorBase::reportNewObservation` (SensorBase.cpp lines 161-201), with
fault injection: `publishFails` (resp. `rawlogFails`) makes the publish
step (resp. the rawlog-open/append step) throw.  The C++ lambda runs
(a) `world->dispatchOnObservation`, (b) the ZMQ publish when
`publishTopic_` is non-empty, and (c) the rawlog append when
`m_save_to_rawlog` is non-empty, sequentially and with no exception
handler, so a throw abandons the rest of the task body (the exception
lands in the discarded `std::future`).  Returns the events performed in
order, the sensor state after the task, and whether the task body ran to
completion. -/
def sensorSendoutTask (st : SensorIOState) (publishFails rawlogFails : Bool) :
    List SinkEvent × SensorIOState × Bool :=
  let events := [SinkEvent.worldHook]
  if st.publishTopic ≠ "" ∧ publishFails then
    (events, st, false)
  else
    let events :=
      if st.publishTopic ≠ "" then events ++ [SinkEvent.publish st.publishTopic]
      else events
    if st.save_to_rawlog ≠ "" then
      if rawlogFails then (events, st, false)
      else
        (events ++ [SinkEvent.rawlogAppend st.save_to_rawlog],
          { st with rawlogOpened := true }, true)
    else (events, st, true)

/-- A task enqueued on `m_threadPoolSendoutObs`: the observation (an
opaque identity) and the copied simulation context captured by value. -/
structure SendoutTask where
  obs : ℕ
  context : TSimulContext
  deriving DecidableEq

/-- Embedding of `SensorBase::reportNewObservation` (SensorBase.cpp lines
155-202) as seen from the stepping thread: a null observation returns at
once; otherwise exactly one task holding the observation and a copy of
the context is appended to the worker queue.  The returned `std::future`
is discarded, so nothing of a later task failure flows back here. -/
def reportNewObservation (queue : List SendoutTask) (obs : Option ℕ)
    (context : TSimulContext) : List SendoutTask :=
  match obs with
  | none => queue
  | some o => queue ++ [⟨o, context⟩]

/-- C10: a null observation makes `reportNewObservation` a total no-op:
the worker queue is unchanged (no task enqueued, hence no sink ever
invoked for it), while a non-null observation enqueues exactly one
task. -/
theorem reportNewObservation_null_noop (queue : List SendoutTask)
    (context : TSimulContext) :
    reportNewObservation queue none context = queue
    ∧ ∀ o : ℕ, reportNewObservation queue (some o) context
        = queue ++ [⟨o, context⟩] :=
  ⟨rfl, fun _ => rfl⟩

/-- True for the rawlog-append events. -/
def SinkEvent.isRawlogAppend : SinkEvent → Bool
  | SinkEvent.rawlogAppend _ => true
  | _ => false

/-- C9: for a sensor with a non-empty publish topic and an empty rawlog
path, a successful send-out task performs exactly one publish to that
topic and zero rawlog appends (and runs to completion). -/
theorem single_sample_publishes_once (st : SensorIOState)
    (htopic : st.publishTopic ≠ "") (hlog : st.save_to_rawlog = "") :
    (sensorSendoutTask st false false).1
      = [SinkEvent.worldHook, SinkEvent.publish st.publishTopic]
    ∧ (sensorSendoutTask st false false).1.count
        (SinkEvent.publish st.publishTopic) = 1
    ∧ (sensorSendoutTask st false false).1.countP SinkEvent.isRawlogAppend = 0
    ∧ (sensorSendoutTask st false false).2.2 = true := by
  have hev : (sensorSendoutTask st false false).1
      = [SinkEvent.worldHook, SinkEvent.publish st.publishTopic] := by
    simp [sensorSendoutTask, htopic, hlog]
  have hdone : (sensorSendoutTask st false false).2.2 = true := by
    simp [sensorSendoutTask, htopic, hlog]
  refine ⟨hev, ?_, ?_, hdone⟩
  · rw [hev]
    simp [List.count_cons, List.count_nil]
  · rw [hev]
    simp [List.countP_cons, SinkEvent.isRawlogAppend]

/-- Witness for `single_sample_publishes_once`: topic `t`, no rawlog. -/
theorem single_sample_publishes_once_witness :
    ("t" : String) ≠ ""
    ∧ ((sensorSendoutTask ⟨"t", "", false⟩ false false).1
        = [SinkEvent.worldHook, SinkEvent.publish "t"]
      ∧ (sensorSendoutTask ⟨"t", "", false⟩ false false).1.count
          (SinkEvent.publish "t") = 1
      ∧ (sensorSendoutTask ⟨"t", "", false⟩ false false).1.countP
          SinkEvent.isRawlogAppend = 0
      ∧ (sensorSendoutTask ⟨"t", "", false⟩ false false).2.2 = true) :=
  ⟨by decide, single_sample_publishes_once ⟨"t", "", false⟩ (by decide) rfl⟩

/-- C8 (amended): the world observation hook (a) is always the first
effect of the send-out task, whatever faults the publish or rawlog steps
later raise, and a rawlog failure (c) never prevents the publish step
(b); but — against the original claim — a publish failure does prevent
the rawlog append for the same observation, since the task body runs the
sinks sequentially with no exception handler (see the counterexample). -/
theorem sendout_hook_first_and_rawlog_failure_isolated (st : SensorIOState)
    (publishFails rawlogFails : Bool) :
    (sensorSendoutTask st publishFails rawlogFails).1.head?
      = some SinkEvent.worldHook
    ∧ (publishFails = false → st.publishTopic ≠ "" →
        SinkEvent.publish st.publishTopic
          ∈ (sensorSendoutTask st publishFails rawlogFails).1) := by
  constructor
  · unfold sensorSendoutTask
    repeat' split
    all_goals simp
  · intro hpf htopic
    subst hpf
    unfold sensorSendoutTask
    repeat' split
    all_goals simp_all

/-- C8 counterexample: with publish topic `t` and rawlog path `f` both
configured, a failing publish step leaves the task having performed only
the world hook — the rawlog sink never processes the observation, and the
task does not complete.  With no fault injected the same state performs
all three effects. -/
theorem sendout_publish_failure_blocks_rawlog_cex :
    (sensorSendoutTask ⟨"t", "f", false⟩ true false).1 = [SinkEvent.worldHook]
    ∧ (sensorSendoutTask ⟨"t", "f", false⟩ true false).2.2 = false
    ∧ (sensorSendoutTask ⟨"t", "f", false⟩ false false).1
        = [SinkEvent.worldHook, SinkEvent.publish "t",
            SinkEvent.rawlogAppend "f"] := by
  refine ⟨?_, ?_, ?_⟩ <;> decide

end Mvsim
